import Mathlib

/-!
Verification of the Gimlet Inspector protocol definition (`src/lib.rs`).

The repository declares the protocol's discriminated unions (`Request`,
`QueryV0`, `SequencerRegistersResponseV0`) and its trailer-size constants.
The byte-level encoding of these enums is produced by the derived
`hubpack` `Serialize`/`Deserialize`/`SerializedSize` implementations,
which are generated from the declarations but whose code is not part of
this repository's sources; the encode/decode functions below are
therefore modelled from the spec's byte-exact wire-format description
(one dense `u8` discriminant per enum, starting at 0 in declaration
order, payload following, trailing bytes returned unconsumed, unknown
discriminants and short buffers rejected with an error).

Bytes are modelled as `Nat` (every byte written is below 256; decoding
rejects anything outside the declared discriminant range, so larger
values behave like unknown discriminants).
-/

namespace GimletInspector

/-- Queries that can be sent in V0 (`enum QueryV0`). The single declared
variant is `SequencerRegisters`. -/
inductive QueryV0
  | SequencerRegisters
  deriving DecidableEq, Repr

/-- Request format to the inspector agent (`enum Request`): a version
tag wrapping the versioned query. The single declared version is `V0`. -/
inductive Request
  | V0 (q : QueryV0)
  deriving DecidableEq, Repr

/-- Response sent in response to `QueryV0::SequencerRegisters`
(`enum SequencerRegistersResponseV0`), variants in declaration order:
`Success`, `SequencerTaskDead`, `SequencerReadRegsFailed`. -/
inductive SequencerRegistersResponseV0
  | Success
  | SequencerTaskDead
  | SequencerReadRegsFailed
  deriving DecidableEq, Repr

/-- Modelled from the spec: the decode-failure taxonomy. The repository
itself delegates decoding to `hubpack`, so the error constructors follow
the spec's `DecodeError` description: unknown version tag, unknown
discriminant below the version level, or a buffer too short for the
claimed variant. -/
inductive DecodeError
  | UnknownVersion
  | UnknownDiscriminant
  | Truncated
  deriving DecidableEq, Repr

/-- Modelled from the spec: hubpack encoding of `QueryV0` -- a single
dense discriminant byte, `SequencerRegisters` having ordinal 0. -/
def encodeQueryV0 : QueryV0 → List Nat
  | .SequencerRegisters => [0]

/-- Modelled from the spec: hubpack encoding of `Request` -- the
version ordinal (0 for `V0`) followed by the inner query's encoding. -/
def encodeRequest : Request → List Nat
  | .V0 q => 0 :: encodeQueryV0 q

/-- Modelled from the spec: hubpack encoding of
`SequencerRegistersResponseV0` -- one discriminant byte, dense from 0
in declaration order. -/
def encodeSeqRegRespV0 : SequencerRegistersResponseV0 → List Nat
  | .Success => [0]
  | .SequencerTaskDead => [1]
  | .SequencerReadRegsFailed => [2]

/-- Modelled from the spec: hubpack decoding of `QueryV0`. Reads one
discriminant byte; 0 yields `SequencerRegisters`, anything else is an
unknown discriminant, an empty buffer is too short. Unconsumed bytes
are returned alongside the value. -/
def decodeQueryV0 : List Nat → Except DecodeError (QueryV0 × List Nat)
  | [] => .error .Truncated
  | b :: rest =>
    if b = 0 then .ok (.SequencerRegisters, rest)
    else .error .UnknownDiscriminant

/-- Modelled from the spec: hubpack decoding of `Request`. Reads the
version tag; 0 dispatches to the `QueryV0` decoder, any other tag is an
unknown version, an empty buffer is too short. -/
def decodeRequest : List Nat → Except DecodeError (Request × List Nat)
  | [] => .error .Truncated
  | b :: rest =>
    if b = 0 then
      match decodeQueryV0 rest with
      | .ok (q, r) => .ok (.V0 q, r)
      | .error e => .error e
    else .error .UnknownVersion

/-- Modelled from the spec: hubpack decoding of
`SequencerRegistersResponseV0`. Reads one discriminant byte; 0, 1, 2
yield the three declared variants in order, anything else is an unknown
discriminant, an empty buffer is too short. Trailing bytes are returned
unconsumed. -/
def decodeSeqRegRespV0 :
    List Nat → Except DecodeError (SequencerRegistersResponseV0 × List Nat)
  | [] => .error .Truncated
  | b :: rest =>
    if b = 0 then .ok (.Success, rest)
    else if b = 1 then .ok (.SequencerTaskDead, rest)
    else if b = 2 then .ok (.SequencerReadRegsFailed, rest)
    else .error .UnknownDiscriminant

/-- Maximum structured size of a `QueryV0` (hubpack `SerializedSize`):
one discriminant byte, no variant payload. -/
def QueryV0.MAX_SIZE : Nat := 1

/-- Maximum structured size of a `Request` (hubpack `SerializedSize`):
one version byte plus the widest variant payload. -/
def Request.MAX_SIZE : Nat := 1 + QueryV0.MAX_SIZE

/-- Maximum structured size of a `SequencerRegistersResponseV0`
(hubpack `SerializedSize`): one discriminant byte, no variant payload. -/
def SequencerRegistersResponseV0.MAX_SIZE : Nat := 1

/-- Maximum trailer size for any `QueryV0` (`pub const QUERY_V0_TRAILER:
usize = 0`). -/
def QUERY_V0_TRAILER : Nat := 0

/-- Maximum trailer size for any defined `Request`
(`pub const REQUEST_TRAILER: usize = QUERY_V0_TRAILER`). -/
def REQUEST_TRAILER : Nat := QUERY_V0_TRAILER

/-- Current limit on trailer bytes following a
`SequencerRegistersResponseV0` (`pub const SEQ_REG_RESP_V0_TRAILER:
usize = 64`). -/
def SEQ_REG_RESP_V0_TRAILER : Nat := 64

/-- Maximum size of any possible response in protocol V0
(`pub const ANY_RESPONSE_V0_MAX_SIZE: usize =
SequencerRegistersResponseV0::MAX_SIZE + SEQ_REG_RESP_V0_TRAILER`). -/
def ANY_RESPONSE_V0_MAX_SIZE : Nat :=
  SequencerRegistersResponseV0.MAX_SIZE + SEQ_REG_RESP_V0_TRAILER

/-- Trailer length a given `SequencerRegistersResponseV0` variant may
carry, from the declaration's doc comments: `Success` appends up to
`SEQ_REG_RESP_V0_TRAILER` register bytes, the two failure variants
attach no data. -/
def trailerLen : SequencerRegistersResponseV0 → Nat
  | .Success => SEQ_REG_RESP_V0_TRAILER
  | .SequencerTaskDead => 0
  | .SequencerReadRegsFailed => 0

/-- Request-side trailer length of each `QueryV0`, from the code's doc
comments: no declared query carries a request trailer. -/
def requestTrailerLen : QueryV0 → Nat
  | .SequencerRegisters => 0

/-- Modelled from the spec: the spec describes a per-query trailer
constant as "the maximum trailer length across all of that query's
response variants". For the `SequencerRegisters` query this maximum
ranges over the three `SequencerRegistersResponseV0` variants. This
spec-side definition exists to be compared against the source's
`QUERY_V0_TRAILER`. -/
def specRespTrailerMaxV0 : Nat :=
  max (trailerLen .Success)
    (max (trailerLen .SequencerTaskDead) (trailerLen .SequencerReadRegsFailed))

/-- C1: for every constructible `Request` and every constructible
`SequencerRegistersResponseV0`, decoding the encoding yields the
original value with the trailer bytes passed through byte-for-byte
unmodified, and encoding `Success` with a 64-byte trailer gives a
65-byte message. -/
theorem c1_round_trip (r : Request) (resp : SequencerRegistersResponseV0)
    (t : List Nat) (h : t.length ≤ SEQ_REG_RESP_V0_TRAILER) :
    decodeRequest (encodeRequest r) = .ok (r, []) ∧
    decodeSeqRegRespV0 (encodeSeqRegRespV0 resp ++ t) = .ok (resp, t) ∧
    (resp = .Success → t.length = 64 →
      (encodeSeqRegRespV0 resp ++ t).length = 65) := by
  obtain ⟨q⟩ := r
  cases q
  refine ⟨rfl, ?_, ?_⟩
  · cases resp <;>
      simp [encodeSeqRegRespV0, decodeSeqRegRespV0]
  · intro hresp ht
    subst hresp
    simp [encodeSeqRegRespV0, ht]

/-- C1 witness: the round-trip theorem applied to
`Request.V0 SequencerRegisters` and `Success` with a concrete 64-byte
trailer whose first byte is the revision tag 3. -/
theorem c1_round_trip_witness :
    decodeSeqRegRespV0
        (encodeSeqRegRespV0 .Success ++ (3 :: List.replicate 63 7)) =
      .ok (.Success, 3 :: List.replicate 63 7) ∧
    (encodeSeqRegRespV0 .Success ++ (3 :: List.replicate 63 7)).length = 65 :=
  ⟨(c1_round_trip (.V0 .SequencerRegisters) .Success
      (3 :: List.replicate 63 7) (by decide)).2.1,
   (c1_round_trip (.V0 .SequencerRegisters) .Success
      (3 :: List.replicate 63 7) (by decide)).2.2 rfl (by decide)⟩

/-- C2: encoding `Request.V0 (QueryV0.SequencerRegisters)` produces
exactly the two bytes `[0, 0]`: version tag 0 then query discriminant
0. -/
theorem c2_request_encoding :
    encodeRequest (.V0 .SequencerRegisters) = [0, 0] ∧
    (encodeRequest (.V0 .SequencerRegisters)).length = 2 := by
  decide

/-- C3: the three `SequencerRegistersResponseV0` variants encode, with
no trailer, to the single bytes 0, 1 and 2 respectively: discriminants
are dense from 0 in declaration order. -/
theorem c3_response_encoding :
    encodeSeqRegRespV0 .Success = [0] ∧
    encodeSeqRegRespV0 .SequencerTaskDead = [1] ∧
    encodeSeqRegRespV0 .SequencerReadRegsFailed = [2] ∧
    ∀ v, (encodeSeqRegRespV0 v).length = 1 := by
  refine ⟨rfl, rfl, rfl, ?_⟩
  intro v
  cases v <;> rfl

/-- C4: decoding a `Request` from any buffer whose first byte is not 0
(the only declared version ordinal) fails with `UnknownVersion` and
never yields a `Request` from the remaining bytes. -/
theorem c4_unknown_version (b : Nat) (rest : List Nat) (h : b ≠ 0) :
    decodeRequest (b :: rest) = .error .UnknownVersion := by
  simp [decodeRequest, h]

/-- C4 witness: the unknown-version theorem at first byte 1 followed by
a valid-looking query byte. -/
theorem c4_unknown_version_witness :
    decodeRequest (1 :: [0]) = .error .UnknownVersion :=
  c4_unknown_version 1 [0] (by decide)

/-- C5: decoding fails with a `DecodeError` on an unknown discriminant
at the version or query level and on buffers too short for the claimed
variant; in particular the empty buffer and the single byte `[0]` both
yield errors. -/
theorem c5_decode_errors (b : Nat) (rest : List Nat) (hb : b ≠ 0) :
    decodeRequest [] = .error .Truncated ∧
    decodeRequest [0] = .error .Truncated ∧
    decodeRequest (b :: rest) = .error .UnknownVersion ∧
    decodeQueryV0 (b :: rest) = .error .UnknownDiscriminant ∧
    decodeRequest (0 :: b :: rest) = .error .UnknownDiscriminant := by
  refine ⟨rfl, rfl, ?_, ?_, ?_⟩ <;>
    simp [decodeRequest, decodeQueryV0, hb]

/-- C5 witness: the decode-error theorem at the unknown discriminant 3
with an empty remainder. -/
theorem c5_decode_errors_witness :
    decodeRequest [] = .error .Truncated ∧
    decodeRequest [0] = .error .Truncated ∧
    decodeRequest [3] = .error .UnknownVersion ∧
    decodeQueryV0 [3] = .error .UnknownDiscriminant ∧
    decodeRequest [0, 3] = .error .UnknownDiscriminant :=
  c5_decode_errors 3 [] (by decide)

/-- C6: `ANY_RESPONSE_V0_MAX_SIZE` equals the maximum structured
encoding size of the one declared response type (1 byte, a bound every
variant's encoding meets) plus `SEQ_REG_RESP_V0_TRAILER` (64), i.e.
65. -/
theorem c6_any_response_max_size :
    ANY_RESPONSE_V0_MAX_SIZE =
      SequencerRegistersResponseV0.MAX_SIZE + SEQ_REG_RESP_V0_TRAILER ∧
    ANY_RESPONSE_V0_MAX_SIZE = 65 ∧
    ∀ v, (encodeSeqRegRespV0 v).length ≤
      SequencerRegistersResponseV0.MAX_SIZE := by
  refine ⟨rfl, rfl, ?_⟩
  intro v
  cases v <;> decide

/-- C7: for every declared variant of the version-0 response type, its
structured encoding size plus the trailer it may carry is at most
`ANY_RESPONSE_V0_MAX_SIZE`. -/
theorem c7_size_soundness (v : SequencerRegistersResponseV0) :
    (encodeSeqRegRespV0 v).length + trailerLen v ≤
      ANY_RESPONSE_V0_MAX_SIZE := by
  cases v <;> decide

/-- C8 counterexample: `QUERY_V0_TRAILER` (0 in the source) is not the
maximum trailer length across the `SequencerRegisters` query's response
variants, which is 64 because `Success` carries up to 64 trailer
bytes. -/
theorem c8_counterexample :
    QUERY_V0_TRAILER ≠ specRespTrailerMaxV0 ∧ specRespTrailerMaxV0 = 64 := by
  decide

/-- C8 amended: `QUERY_V0_TRAILER` is the request-side trailer budget
of the version-0 queries, equal to 0 because no query carries a request
trailer; the maximum trailer across the `SequencerRegisters` query's
response variants is the separate constant `SEQ_REG_RESP_V0_TRAILER`,
equal to 64. -/
theorem c8_amended :
    QUERY_V0_TRAILER = requestTrailerLen .SequencerRegisters ∧
    QUERY_V0_TRAILER = 0 ∧
    SEQ_REG_RESP_V0_TRAILER = specRespTrailerMaxV0 ∧
    SEQ_REG_RESP_V0_TRAILER = 64 := by
  decide

/-- C9: `REQUEST_TRAILER` equals the maximum request-side trailer
across the queries of version 0 (the single query carries none), so its
value is 0, inherited from `QUERY_V0_TRAILER`. -/
theorem c9_request_trailer :
    REQUEST_TRAILER = requestTrailerLen .SequencerRegisters ∧
    REQUEST_TRAILER = QUERY_V0_TRAILER ∧
    REQUEST_TRAILER = 0 := by
  decide

/-- C10: decoding a `SequencerRegistersResponseV0` from a nonempty
buffer succeeds exactly when the first byte is 0, 1 or 2, and every
first byte of 3 or more fails with an unknown-discriminant error. -/
theorem c10_response_decode_closed (b : Nat) (rest : List Nat) :
    ((∃ v, decodeSeqRegRespV0 (b :: rest) = .ok (v, rest)) ↔
      (b = 0 ∨ b = 1 ∨ b = 2)) ∧
    (3 ≤ b →
      decodeSeqRegRespV0 (b :: rest) = .error .UnknownDiscriminant) := by
  constructor
  · constructor
    · rintro ⟨v, hv⟩
      by_contra hcon
      push_neg at hcon
      obtain ⟨h0, h1, h2⟩ := hcon
      simp [decodeSeqRegRespV0, h0, h1, h2] at hv
    · rintro (rfl | rfl | rfl)
      · exact ⟨.Success, by simp [decodeSeqRegRespV0]⟩
      · exact ⟨.SequencerTaskDead, by simp [decodeSeqRegRespV0]⟩
      · exact ⟨.SequencerReadRegsFailed, by simp [decodeSeqRegRespV0]⟩
  · intro hb
    have h0 : b ≠ 0 := by omega
    have h1 : b ≠ 1 := by omega
    have h2 : b ≠ 2 := by omega
    simp [decodeSeqRegRespV0, h0, h1, h2]

end GimletInspector
